import Mathlib

/-
Verification of the indicator / multi-timeframe scoring engine and the
position risk manager of the binance-trading-bot repository.

Shallow embedding conventions:
* Go float64 values are modelled as rational numbers (ℚ); every arithmetic
  operation used by the embedded code (+, -, *, /, abs, max, comparisons)
  is exact on ℚ.
* math.Sqrt (used only by CalculateBollingerBands) has no exact rational
  counterpart, so the functions that transitively depend on it take an
  explicit square-root interpretation sq : ℚ → ℚ as a parameter.  All
  universally quantified theorems below hold for EVERY interpretation of
  sq, and concrete evaluations are chosen so that the value of sq is
  irrelevant to the stated result or is taken at a perfect square, where
  the instantiation ratSqrt used in the concrete runs is exact.
* Go slices become Lists, iterated with foldl / map exactly in source
  order; s[a:b] becomes drop / take.
* time.Time is modelled as a rational number of hours; time.Since is
  subtraction from an explicit now parameter, and the zero time.Time value
  (IsZero) is the rational 0.
* The fmt.Sprintf reason strings of the risk manager are kept as the
  distinct constant part of each format string; the interpolated numeric
  payload, which no caller inspects, is dropped.
* log.Printf calls, and the indicator values computed solely to be logged
  (Bollinger bands / ATR / momentum score inside AnalyzeMultipleTimeframes),
  have no observable effect and are omitted.
* The struct types are translated from pkg/types/models.go, keeping every
  field and the source field order; the anonymous nested section structs
  of types.Config are given the names BinanceConfig, TelegramConfig,
  StrategyConfig and RiskConfig.  The Trade struct is used only by the
  exchange client, which is outside the verified core, and is omitted.
-/

namespace Bot

set_option maxRecDepth 20000

/-- types.Kline from pkg/types/models.go: an OHLCV candle.  The time.Time
fields OpenTime and CloseTime are rational timestamps here. -/
structure Kline where
  OpenTime : ℚ
  Open : ℚ
  High : ℚ
  Low : ℚ
  Close : ℚ
  Volume : ℚ
  CloseTime : ℚ
  deriving Repr, DecidableEq

/-- types.Ticker from pkg/types/models.go: a 24h ticker snapshot. -/
structure Ticker where
  Symbol : String
  PriceChange : ℚ
  PriceChangePercent : ℚ
  LastPrice : ℚ
  Volume : ℚ
  QuoteVolume : ℚ
  Timestamp : ℚ
  deriving Repr, DecidableEq

/-- types.TimeframeAnalysis from pkg/types/models.go, as constructed in
AnalyzeMultipleTimeframes. -/
structure TimeframeAnalysis where
  Timeframe : String
  Trend : String
  Strength : ℚ
  RSI : ℚ
  MACD : ℚ
  Signal : ℚ
  deriving Repr, DecidableEq

/-- types.Signal from pkg/types/models.go.  The Regime field is declared
in the source but never assigned by GenerateSignal, so it keeps its zero
value (the empty string). -/
structure Signal where
  Symbol : String
  Action : String
  Price : ℚ
  Strength : ℚ
  Reason : String
  Timestamp : ℚ
  MTFScore : ℚ
  ATR : ℚ
  Regime : String
  deriving Repr, DecidableEq

/-- types.Position from pkg/types/models.go.  EntryTime and LastUpdateTime
are rational numbers of hours; the Go zero time is 0. -/
structure Position where
  Symbol : String
  EntryPrice : ℚ
  CurrentPrice : ℚ
  HighestPrice : ℚ
  Quantity : ℚ
  Side : String
  StopLoss : ℚ
  TakeProfit : ℚ
  TrailingStopPrice : ℚ
  TrailingStopEnabled : Bool
  PnL : ℚ
  PnLPercent : ℚ
  EntryTime : ℚ
  LastUpdateTime : ℚ
  deriving Repr, DecidableEq

/-- The anonymous Binance section struct of types.Config
(pkg/types/models.go), named here. -/
structure BinanceConfig where
  APIKey : String
  SecretKey : String
  Testnet : Bool
  deriving Repr, DecidableEq

/-- The anonymous Telegram section struct of types.Config
(pkg/types/models.go), named here. -/
structure TelegramConfig where
  BotToken : String
  ChatID : String
  Enabled : Bool
  deriving Repr, DecidableEq

/-- The anonymous Strategy section struct of types.Config
(pkg/types/models.go), named here; MaxPositions is a Go int used only as
a count. -/
structure StrategyConfig where
  MaxPositions : ℕ
  PositionSize : ℚ
  StopLossPercent : ℚ
  TakeProfitPercent : ℚ
  TrailingStopPercent : ℚ
  TrailingStopEnabled : Bool
  MinVolume : ℚ
  MinPriceChange : ℚ
  UseMultiTimeframe : Bool
  MinSignalStrength : ℚ
  RequireVolumeSpike : Bool
  VolumeSpikeMultiplier : ℚ
  MaxRSIEntry : ℚ
  MinRSIEntry : ℚ
  RequireEMACrossover : Bool
  RequireMACDPositive : Bool
  deriving Repr, DecidableEq

/-- The anonymous Risk section struct of types.Config
(pkg/types/models.go), named here. -/
structure RiskConfig where
  MaxDailyLoss : ℚ
  MaxDrawdown : ℚ
  deriving Repr, DecidableEq

/-- types.Config from pkg/types/models.go. -/
structure Config where
  Binance : BinanceConfig
  Telegram : TelegramConfig
  Strategy : StrategyConfig
  Risk : RiskConfig
  deriving Repr, DecidableEq

/-- TradeResult from internal/risk/manager.go. -/
structure TradeResult where
  Symbol : String
  PnL : ℚ
  Duration : ℚ
  Success : Bool
  deriving Repr, DecidableEq

/-- The risk Manager state from internal/risk/manager.go. -/
structure Manager where
  config : Config
  dailyPnL : ℚ
  initialBalance : ℚ
  tradeHistory : List TradeResult
  deriving Repr, DecidableEq

/-! ## Indicator library (internal/strategy/indicators.go) -/

/-- CalculateSMA: mean of the last period samples, 0 on insufficient data. -/
def calculateSMA (prices : List ℚ) (period : ℕ) : ℚ :=
  if prices.length < period then 0
  else (prices.drop (prices.length - period)).sum / (period : ℚ)

/-- CalculateEMA: seeded with the SMA of the first period samples, then the
recurrence ema = (price - ema) * (2/(period+1)) + ema over the rest. -/
def calculateEMA (prices : List ℚ) (period : ℕ) : ℚ :=
  if prices.length < period then 0
  else
    (prices.drop period).foldl
      (fun ema p => (p - ema) * (2 / ((period : ℚ) + 1)) + ema)
      (calculateSMA (prices.take period) period)

/-- CalculateRSI: gain/loss split per step, plain mean over the first
period steps, Wilder smoothing afterwards, output clamped to [0,100];
50 on insufficient data. -/
def calculateRSI (prices : List ℚ) (period : ℕ) : ℚ :=
  if prices.length < period + 1 then 50
  else
    let changes := (prices.zip prices.tail).map (fun pr => pr.2 - pr.1)
    let gains := changes.map (fun c => if c > 0 then c else 0)
    let losses := changes.map (fun c => if c > 0 then 0 else |c|)
    if gains.length < period then 50
    else
      let avgGain0 := (gains.take period).sum / (period : ℚ)
      let avgLoss0 := (losses.take period).sum / (period : ℚ)
      let avgs := ((gains.drop period).zip (losses.drop period)).foldl
        (fun av gl =>
          ((av.1 * ((period : ℚ) - 1) + gl.1) / (period : ℚ),
           (av.2 * ((period : ℚ) - 1) + gl.2) / (period : ℚ)))
        (avgGain0, avgLoss0)
      let avgGain := avgs.1
      let avgLoss := avgs.2
      if avgLoss = 0 then
        if avgGain = 0 then 50 else 100
      else
        let rs := avgGain / avgLoss
        let rsi := 100 - 100 / (1 + rs)
        if rsi < 0 then 0 else if rsi > 100 then 100 else rsi

/-- CalculateMACD: MACD line = EMA12 - EMA26; the signal line replays the
MACD line over every prefix prices[:i+1] for i = 26..len-1 and takes its
EMA9, provided at least 9 such values exist; histogram = MACD - signal. -/
def calculateMACD (prices : List ℚ) : ℚ × ℚ × ℚ :=
  if prices.length < 26 then (0, 0, 0)
  else
    let ema12 := calculateEMA prices 12
    let ema26 := calculateEMA prices 26
    let macd := ema12 - ema26
    let macdValues := (List.range (prices.length - 26)).map (fun j =>
      let tempPrices := prices.take (27 + j)
      calculateEMA tempPrices 12 - calculateEMA tempPrices 26)
    if macdValues.length ≥ 9 then
      let signal := calculateEMA macdValues 9
      (macd, signal, macd - signal)
    else (macd, 0, 0)

/-- CalculateBollingerBands: (upper, middle, lower); sq interprets
math.Sqrt. -/
def calculateBollingerBands (sq : ℚ → ℚ) (prices : List ℚ) (period : ℕ)
    (stdDev : ℚ) : ℚ × ℚ × ℚ :=
  if prices.length < period then (0, 0, 0)
  else
    let middle := calculateSMA prices period
    let variance :=
      ((prices.drop (prices.length - period)).map
        (fun p => (p - middle) ^ 2)).sum / (period : ℚ)
    let stdDeviation := sq variance
    (middle + stdDev * stdDeviation, middle, middle - stdDev * stdDeviation)

/-- CalculateATR: SMA(period) of the true ranges of consecutive bars. -/
def calculateATR (klines : List Kline) (period : ℕ) : ℚ :=
  if klines.length < period + 1 then 0
  else
    let trueRanges := (klines.zip klines.tail).map (fun pr =>
      max (pr.2.High - pr.2.Low)
        (max |pr.2.High - pr.1.Close| |pr.2.Low - pr.1.Close|))
    calculateSMA trueRanges period

/-- DetectVolumeSpike: ratio of current volume to the mean of prior
non-negligible volumes, capped at 10; spike when the ratio exceeds 2. -/
def detectVolumeSpike (volumes : List ℚ) (currentVolume : ℚ) : Bool × ℚ :=
  if volumes.length < 10 then (false, 1)
  else
    let validVolumes := volumes.filter (fun v => v > 1/1000000)
    if validVolumes.length < 5 then (false, 1)
    else
      let avgVolume := calculateSMA validVolumes validVolumes.length
      if avgVolume < 1/1000000 then (false, 1)
      else
        let ratio := currentVolume / avgVolume
        let ratio := if ratio > 10 then 10 else ratio
        (decide (ratio > 2), ratio)

/-- The weighted vote of DetectTrend: (bullishSignals, totalSignals).  The
source also accumulates bearishSignals, but neither the classification nor
the strength reads it (the label is derived from strength alone), so that
dead accumulator is omitted. -/
def trendVote (sq : ℚ → ℚ) (klines : List Kline) : ℕ × ℕ :=
  let closes := klines.map (fun k => k.Close)
  let volumes := klines.map (fun k => k.Volume)
  let sma20 := calculateSMA closes 20
  let sma50 := calculateSMA closes 50
  let currentPrice := (closes.getLast?).getD 0
  let rsi := calculateRSI closes 14
  let m3 := calculateMACD closes
  let macd := m3.1
  let signal := m3.2.1
  let bb := calculateBollingerBands sq closes 20 2
  let upperBB := bb.1
  let lowerBB := bb.2.2
  let currentVolume := (volumes.getLast?).getD 0
  let vs := detectVolumeSpike volumes.dropLast currentVolume
  let volumeSpike := vs.1
  let volumeRatio := vs.2
  let prevClose := closes.getD (closes.length - 2) 0
  let bullishSignals : ℕ :=
    (if currentPrice > sma20 then 2 else 0) +
    (if 50 ≤ closes.length then (if sma20 > sma50 then 2 else 0) else 0) +
    (if rsi > 50 ∧ rsi < 70 then 1 else 0) +
    (if macd > signal then 2 else 0) +
    (if currentPrice > (upperBB + lowerBB) / 2 then 1 else 0) +
    (if volumeSpike ∧ volumeRatio > 2 then
      (if currentPrice > prevClose then 1 else 0) else 0)
  let totalSignals : ℕ :=
    2 + (if 50 ≤ closes.length then 2 else 0) + 1 + 2 + 1 +
    (if volumeSpike ∧ volumeRatio > 2 then 1 else 0)
  (bullishSignals, totalSignals)

/-- DetectTrend: weighted multi-signal vote over the last candles; returns
the trend label and a strength. -/
def detectTrend (sq : ℚ → ℚ) (klines : List Kline) : String × ℚ :=
  if klines.length < 20 then ("NEUTRAL", 0.5)
  else
    let v := trendVote sq klines
    let strength : ℚ := (v.1 : ℚ) / (v.2 : ℚ)
    if strength > 0.65 then ("BULLISH", strength)
    else if strength < 0.35 then ("BEARISH", 1 - strength)
    else ("NEUTRAL", 0.5)

/-- DetectMarketRegime: volatility / trend-consistency / mean-deviation
classification over at least 50 bars. -/
def detectMarketRegime (klines : List Kline) : String × ℚ :=
  if klines.length < 50 then ("UNKNOWN", 0.5)
  else
    let closes := klines.map (fun k => k.Close)
    let atr := calculateATR klines 14
    let sma := calculateSMA closes 20
    let currentPrice := (closes.getLast?).getD 0
    let deviation := |currentPrice - sma| / sma * 100
    let volatility := atr / currentPrice * 100
    let aboveSMA :=
      ((closes.drop (closes.length - 20)).filter (fun c => c > sma)).length
    let consistency := (aboveSMA : ℚ) / 20
    if volatility > 5 then ("VOLATILE", 0.8)
    else if consistency > 0.7 ∨ consistency < 0.3 then
      ("TRENDING", |consistency - 0.5| * 2)
    else if deviation < 2 then ("RANGING", 0.7)
    else ("TRANSITIONING", 0.5)

/-- AnalyzeVolumeProfile: accumulation vs distribution from up-bar vs
down-bar volume over the last periods bars. -/
def analyzeVolumeProfile (klines : List Kline) (periods : ℕ) : String × ℚ :=
  if klines.length < periods then ("NEUTRAL", 0.5)
  else
    let recent := klines.drop (klines.length - periods)
    let upVolume := ((recent.filter (fun k => k.Close > k.Open)).map
      (fun k => k.Volume)).sum
    let downVolume := ((recent.filter (fun k => ¬ k.Close > k.Open)).map
      (fun k => k.Volume)).sum
    let totalVolume := upVolume + downVolume
    if totalVolume = 0 then ("NEUTRAL", 0.5)
    else
      let buyPressure := upVolume / totalVolume
      if buyPressure > 0.65 then ("ACCUMULATION", buyPressure)
      else if buyPressure < 0.35 then ("DISTRIBUTION", 1 - buyPressure)
      else ("NEUTRAL", 0.5)

/-! ## Multi-timeframe aggregation and signal scoring
(internal/strategy/momentum.go) -/

/-- The fixed timeframe set of AnalyzeMultipleTimeframes. -/
def timeframes : List String := ["5m", "15m", "1h", "4h"]

/-- The per-timeframe weight map of AnalyzeMultipleTimeframes (a Go map
lookup; an absent key yields 0, the Go zero value). -/
def weights (tf : String) : ℚ :=
  if tf = "5m" then 0.5
  else if tf = "15m" then 1
  else if tf = "1h" then 2
  else if tf = "4h" then 3
  else 0

/-- One iteration of the AnalyzeMultipleTimeframes loop.  The accumulator
carries (analyses so far, totalScore, validTimeframes); fetch gives the
outcome of client.GetKlines for each timeframe (none = fetch error), and a
result of fewer than 20 bars is likewise skipped.  The Bollinger / ATR /
momentum values computed only for logging are omitted. -/
def mtfStep (sq : ℚ → ℚ) (fetch : String → Option (List Kline))
    (acc : List TimeframeAnalysis × ℚ × ℕ) (tf : String) :
    List TimeframeAnalysis × ℚ × ℕ :=
  match fetch tf with
  | none => acc
  | some klines =>
    if klines.length < 20 then acc
    else
      let closes := klines.map (fun k => k.Close)
      let tr := detectTrend sq klines
      let trend := tr.1
      let strength := tr.2
      let rsi := calculateRSI closes 14
      let m3 := calculateMACD closes
      let analysis : TimeframeAnalysis :=
        ⟨tf, trend, strength, rsi, m3.1, m3.2.1⟩
      let totalScore := acc.2.1 +
        (if trend = "BULLISH" then strength * weights tf
         else if trend = "BEARISH" then -(strength * weights tf)
         else 0.5 * weights tf)
      (acc.1 ++ [analysis], totalScore, acc.2.2 + 1)

/-- AnalyzeMultipleTimeframes: runs the trend detector over the fixed
timeframe set and normalizes the signed weighted sum.  Note that the
source computes totalWeight over timeframes[:validTimeframes] , i.e. the
first validTimeframes entries of the FIXED list, not the timeframes that
actually contributed. -/
def analyzeMultipleTimeframes (sq : ℚ → ℚ)
    (fetch : String → Option (List Kline)) :
    List TimeframeAnalysis × ℚ :=
  let r := timeframes.foldl (mtfStep sq fetch) ([], 0, 0)
  let totalScore := r.2.1
  let validTimeframes := r.2.2
  let totalWeight := ((timeframes.take validTimeframes).map weights).sum
  let mtfScore :=
    if validTimeframes > 0 then (totalScore + totalWeight) / (2 * totalWeight)
    else 0.5
  (r.1, mtfScore)

/-- UpdateHistory: append the sample and evict the oldest beyond 100. -/
def updateHistory (priceHist volumeHist : List ℚ) (price volume : ℚ) :
    List ℚ × List ℚ :=
  let ph := priceHist ++ [price]
  let vh := volumeHist ++ [volume]
  if ph.length > 100 then (ph.drop 1, vh.drop 1) else (ph, vh)

/-- The point total of the GenerateSignal scoring checklist, accumulated in
source order from the entry-criteria booleans and the regime label. -/
def scorePoints (momentumStrong volumeGood volumeConfirmation
    volumeProfileBullish rsiHealthy rsiOptimal rsiNotExtreme
    mtfBullish mtfStrong aboveSMA bullishEMA macdBullish macdPositive
    bbInRange bbBullish regimeFavorable regimeHighConfidence : Bool)
    (regime : String) : ℚ :=
  (if momentumStrong then 15 else 0) +
  (if volumeGood then 15 + (if volumeConfirmation then 5 else 0) else 0) +
  (if volumeProfileBullish then 5 else 0) +
  (if rsiHealthy && rsiNotExtreme then 10 + (if rsiOptimal then 5 else 0)
   else 0) +
  (if mtfBullish then 10 + (if mtfStrong then 10 else 0) else 0) +
  (if aboveSMA then 5 else 0) +
  (if bullishEMA then 5 else 0) +
  (if macdBullish && macdPositive then 10 else 0) +
  (if bbInRange && bbBullish then 5 else 0) +
  (if regimeFavorable && regimeHighConfidence then 10
   else if regime = "VOLATILE" then -5
   else if regime = "RANGING" then -3
   else 0)

/-- The maximum score accumulated by GenerateSignal (every maxScore
increment is unconditional in the source). -/
def maxScore : ℚ := 15 + 20 + 5 + 15 + 20 + 5 + 5 + 10 + 5 + 10

/-- The entry-criteria / scoring / decision block of GenerateSignal (the
whole hasPosition-free branch after the indicator evaluation), taking the
locals computed before it exactly as the source has them in scope.  The
rationale strings are abbreviated to their constant prefixes. -/
def scoreAndDecide (cfg : Config) (ticker : Ticker)
    (regime : String) (regimeConfidence : ℚ) (volumeProfile : String)
    (atrValue rsi sma20 ema12 ema26 macd macdSignal macdHistogram : ℚ)
    (upperBB middleBB lowerBB : ℚ) (volumeSpike : Bool) (volumeRatio : ℚ)
    (mtfScore : ℚ) (signal1 : Signal) : Signal :=
  let momentumStrong :=
    decide (ticker.PriceChangePercent ≥ cfg.Strategy.MinPriceChange)
  let volumeGood := decide (ticker.QuoteVolume ≥ cfg.Strategy.MinVolume)
  let volumeConfirmation := volumeSpike && decide (volumeRatio > 1.5)
  let volumeProfileBullish := decide (volumeProfile = "ACCUMULATION")
  let rsiHealthy := decide (rsi ≥ 40 ∧ rsi ≤ 75)
  let rsiOptimal := decide (rsi ≥ 45 ∧ rsi ≤ 65)
  let rsiNotExtreme := decide (rsi > 5 ∧ rsi < 95)
  let aboveSMA := decide (ticker.LastPrice > sma20 * 0.98)
  let bullishEMA := decide (ema12 > ema26)
  let macdBullish := decide (macd > macdSignal)
  let macdPositive := decide (macdHistogram > 0)
  let bbInRange :=
    decide (ticker.LastPrice > lowerBB ∧ ticker.LastPrice < upperBB)
  let bbBullish := decide (ticker.LastPrice > middleBB)
  let mtfBullish := decide (mtfScore > 0.50)
  let mtfStrong := decide (mtfScore > 0.65)
  let regimeFavorable :=
    decide (regime = "TRENDING" ∨ regime = "TRANSITIONING")
  let regimeHighConfidence := decide (regimeConfidence > 0.6)
  let score := scorePoints momentumStrong volumeGood volumeConfirmation
    volumeProfileBullish rsiHealthy rsiOptimal rsiNotExtreme
    mtfBullish mtfStrong aboveSMA bullishEMA macdBullish macdPositive
    bbInRange bbBullish regimeFavorable regimeHighConfidence regime
  let strength := score / maxScore
  let signal2 := { signal1 with Strength := strength }
  let threshold : ℚ :=
    if regime = "VOLATILE" then 0.75
    else if regime = "TRENDING" then 0.55
    else if regime = "RANGING" then 0.70
    else 0.60
  if ¬ (rsiNotExtreme = true) then
    { signal2 with Reason := "Extreme RSI detected" }
  else if strength ≥ threshold then
    { signal2 with
        Action := "BUY"
        ATR := atrValue
        Reason := "BUY rationale" }
  else { signal2 with Reason := "Score too low" }

/-- The body of GenerateSignal from the point where the rolling history is
settled: indicator evaluation, regime / volume-profile classification,
multi-timeframe score, then the scoring block when no position is already
open.  klines5m is the outcome of the 5m candle fetch and mtfFetch the
per-timeframe fetch oracle of AnalyzeMultipleTimeframes. -/
def generateSignalCore (sq : ℚ → ℚ) (cfg : Config)
    (klines5m : Option (List Kline)) (mtfFetch : String → Option (List Kline))
    (ticker : Ticker) (positions : List Position)
    (prices volumes : List ℚ) (signal0 : Signal) : Signal :=
  let hasPosition := positions.any (fun pos => pos.Symbol = ticker.Symbol)
  let env5 :=
    match klines5m with
    | some klines =>
      if klines.length > 0 then
        (detectMarketRegime klines, analyzeVolumeProfile klines 20,
         calculateATR klines 14)
      else (("UNKNOWN", 0.5), ("NEUTRAL", 0.5), 0)
    | none => (("UNKNOWN", 0.5), ("NEUTRAL", 0.5), 0)
  let regime := env5.1.1
  let regimeConfidence := env5.1.2
  let volumeProfile := env5.2.1.1
  let atrValue := env5.2.2
  let rsi := if prices.length ≥ 15 then calculateRSI prices 14 else 50
  let sma20 := calculateSMA prices 20
  let ema12 := calculateEMA prices 12
  let ema26 := calculateEMA prices 26
  let m3 := calculateMACD prices
  let macd := m3.1
  let macdSignal := m3.2.1
  let macdHistogram := m3.2.2
  let bb := calculateBollingerBands sq prices 20 2
  let upperBB := bb.1
  let middleBB := bb.2.1
  let lowerBB := bb.2.2
  let vs :=
    if volumes.length > 1 then
      detectVolumeSpike volumes.dropLast ((volumes.getLast?).getD 0)
    else (false, 1)
  let volumeSpike := vs.1
  let volumeRatio := vs.2
  let mtf :=
    if cfg.Strategy.UseMultiTimeframe then analyzeMultipleTimeframes sq mtfFetch
    else ([], 0.6)
  let mtfScore := mtf.2
  let signal1 := { signal0 with MTFScore := mtfScore }
  if hasPosition then { signal1 with Reason := "Already have position" }
  else
    scoreAndDecide cfg ticker regime regimeConfidence volumeProfile
      atrValue rsi sma20 ema12 ema26 macd macdSignal macdHistogram
      upperBB middleBB lowerBB volumeSpike volumeRatio mtfScore signal1

/-- GenerateSignal: updates the rolling history, backfills it from a 1m
candle fetch when it holds fewer than 20 samples (a failed or empty
backfill is a HOLD), then runs the scoring core. -/
def generateSignal (sq : ℚ → ℚ) (cfg : Config)
    (backfill : Option (List Kline)) (klines5m : Option (List Kline))
    (mtfFetch : String → Option (List Kline))
    (ticker : Ticker) (positions : List Position)
    (priceHist volumeHist : List ℚ) : Signal :=
  let signal0 : Signal :=
    ⟨ticker.Symbol, "HOLD", ticker.LastPrice, 0, "", ticker.Timestamp,
     0.5, 0, ""⟩
  let h := updateHistory priceHist volumeHist ticker.LastPrice ticker.Volume
  let prices0 := h.1
  let volumes0 := h.2
  if prices0.length < 20 then
    match backfill with
    | some klines =>
      if klines.length > 0 then
        let prices := klines.map (fun k => k.Close) ++ [ticker.LastPrice]
        let volumes := klines.map (fun k => k.Volume) ++ [ticker.Volume]
        generateSignalCore sq cfg klines5m mtfFetch ticker positions
          prices volumes signal0
      else { signal0 with Reason := "Failed to fetch price history" }
    | none => { signal0 with Reason := "Failed to fetch price history" }
  else
    generateSignalCore sq cfg klines5m mtfFetch ticker positions
      prices0 volumes0 signal0

/-! ## Risk manager (internal/risk/manager.go) -/

/-- CanOpenPosition: max-position gate, daily-loss gate (note the STRICT
comparison dailyPnL < -MaxDailyLoss in the source), and the
4-of-last-5-losses pause.  Reason strings keep their constant part. -/
def canOpenPosition (m : Manager) (positions : List Position) :
    Bool × String :=
  if positions.length ≥ m.config.Strategy.MaxPositions then
    (false, "Maximum positions reached")
  else if m.dailyPnL < -m.config.Risk.MaxDailyLoss then
    (false, "Daily loss limit reached")
  else if 5 ≤ m.tradeHistory.length ∧
      4 ≤ ((m.tradeHistory.drop (m.tradeHistory.length - 5)).filter
        (fun t => ! t.Success)).length then
    (false, "High loss rate detected - pausing to protect capital")
  else (true, "")

/-- UpdateTrailingStop: on a new highest price, recompute the trailing
distance (tightened to 1.25 percent above 5 percent profit and to
1 percent above 8 percent profit) and adopt the new stop only if it is
higher than the stored one.  Returns the updated position and whether the
stop moved. -/
def updateTrailingStop (cfg : Config) (position : Position) :
    Position × Bool :=
  if ¬ (cfg.Strategy.TrailingStopEnabled = true ∧
        position.TrailingStopEnabled = true) then
    (position, false)
  else if position.CurrentPrice > position.HighestPrice then
    let p1 := { position with HighestPrice := position.CurrentPrice }
    let trailingPercent0 := cfg.Strategy.TrailingStopPercent / 100
    let profitPercent := (p1.HighestPrice - p1.EntryPrice) / p1.EntryPrice
    let trailingPercent :=
      if profitPercent > 0.08 then 0.01
      else if profitPercent > 0.05 then 0.0125
      else trailingPercent0
    let newTrailingStop := p1.HighestPrice * (1 - trailingPercent)
    if newTrailingStop > p1.TrailingStopPrice then
      ({ p1 with TrailingStopPrice := newTrailingStop }, true)
    else (p1, false)
  else (position, false)

/-- One refresh step of the position-update loop of the caller: the current
price is written into the position and UpdateTrailingStop runs. -/
def trailingRefresh (cfg : Config) (pos : Position) (price : ℚ) : Position :=
  (updateTrailingStop cfg { pos with CurrentPrice := price }).1

/-- A whole sequence of price refreshes applied in order. -/
def runTrailingUpdates (cfg : Config) (pos : Position) (prices : List ℚ) :
    Position :=
  prices.foldl (trailingRefresh cfg) pos

/-- ShouldClosePosition: trailing stop, static stop-loss, take-profit, then
the two time-based exits (stall after 4 hours without 1 percent profit,
hard exit after 24 hours), first match wins; a zero entry time disables
the time-based exits.  now is the current time in hours. -/
def shouldClosePosition (now : ℚ) (position : Position) : Bool × String :=
  if position.TrailingStopEnabled = true ∧
      position.CurrentPrice ≤ position.TrailingStopPrice then
    (true, "Trailing stop hit")
  else if position.Side = "BUY" ∧ position.CurrentPrice ≤ position.StopLoss
    then (true, "Stop loss hit")
  else if position.Side = "BUY" ∧ position.CurrentPrice ≥ position.TakeProfit
    then (true, "Take profit hit")
  else if ¬ position.EntryTime = 0 then
    let positionAge := now - position.EntryTime
    if positionAge > 4 ∧ position.PnLPercent < 1 then
      (true, "Time-based exit: open with minimal profit")
    else if positionAge > 24 then
      (true, "Time-based exit: open too long")
    else (false, "")
  else (false, "")

/-- AnalyzeRiskReward: reward/risk ratio with an explicit zero-risk guard;
acceptable iff the ratio is at least 1.5.  The Manager receiver is unused
in the source and kept for fidelity. -/
def analyzeRiskReward (m : Manager)
    (entryPrice stopLoss takeProfit : ℚ) : ℚ × Bool :=
  let risk := |entryPrice - stopLoss|
  let reward := |takeProfit - entryPrice|
  if risk = 0 then (0, false)
  else
    let ratio := reward / risk
    (ratio, decide (ratio ≥ 1.5))

/-! ## Concrete inputs for evaluations

Nat.sqrt is defined by well-founded recursion and does not reduce in the
kernel, so concrete evaluations use the structurally reducing floor square
root below as the math.Sqrt interpretation.  Every concrete statement in
this file is either independent of the square-root values (only the
Bollinger midpoint, which the band width cancels out of, feeds a decision)
or evaluates it at a perfect square, where ratSqrt is exact. -/

/-- Floor square root on naturals by bounded search (structurally
reducing, unlike Nat.sqrt). -/
def natSqrt (n : ℕ) : ℕ :=
  ((List.range (n + 1)).filter (fun k => k * k ≤ n)).length - 1

/-- A computable square-root interpretation for concrete runs: exact on
ratios of perfect squares. -/
def ratSqrt (q : ℚ) : ℚ := (natSqrt q.num.toNat : ℚ) / (natSqrt q.den : ℚ)

/-- A fixed configuration for the concrete runs: max 3 positions, 100 USDT
base size, 2 percent stop, 5 percent take profit, trailing enabled at
2 percent, 1,000,000 minimum volume, 5 percent minimum change,
multi-timeframe on, 100 USDT max daily loss, 10 percent max drawdown (the
remaining fields are never consulted by the verified core). -/
def cfgFixed : Config :=
  ⟨⟨"", "", true⟩, ⟨"", "", false⟩,
   ⟨3, 100, 2, 5, 2, true, 1000000, 5, true, 0.6, false, 2, 75, 40,
    false, false⟩,
   ⟨100, 10⟩⟩

/-- 26 rising candles (close 100..125), enough bars for every indicator of
DetectTrend except the 50-bar SMA50 vote. -/
def klRising : List Kline :=
  (List.range 26).map (fun j =>
    ⟨0, 99 + (j : ℚ), 100 + (j : ℚ), 100 + (j : ℚ), 100 + (j : ℚ), 1, 0⟩)

/-- Fetch outcome for the C1 run: the 1h fetch fails, the other three
timeframes return the rising candles. -/
def fetchC1 : String → Option (List Kline) := fun tf =>
  if tf = "1h" then none else some klRising

/-- A ticker with negative momentum and no quote volume. -/
def tickerC2 : Ticker := ⟨"AAAUSDT", -10, -10, 25, 1, 0, 0⟩

/-- 50 identical wide-range candles: ATR 10 on a price of 100, hence
volatility 10 percent and a VOLATILE regime classification. -/
def klVolatile : List Kline := List.replicate 50 ⟨0, 100, 105, 95, 100, 1, 0⟩

/-- 25 falling prices 125, 121, ..., 29; with the appended last price 25
every indicator of the scoring run is bearish and RSI is 0. -/
def phC2 : List ℚ := (List.range 25).map (fun k => 125 - 4 * (k : ℚ))

/-- Flat volume history matching phC2. -/
def vhC2 : List ℚ := List.replicate 25 1

/-- 26 ascending prices 1..26: at least 26 samples, fewer than 35. -/
def pricesC3 : List ℚ := (List.range 26).map (fun k => (k : ℚ) + 1)

/-- Manager whose period PnL sits exactly at the negated daily-loss limit. -/
def mC4 : Manager := ⟨cfgFixed, -100, 0, []⟩

/-- Manager whose period PnL is strictly below the negated limit. -/
def mC4w : Manager := ⟨cfgFixed, -101, 0, []⟩

/-- A BUY position opened 25 hours before time 26 with 50 percent
unrealized profit whose take-profit level is breached. -/
def posC5 : Position :=
  ⟨"AAAUSDT", 100, 150, 150, 1, "BUY", 90, 110, 0, false, 50, 50, 1, 0⟩

/-- A BUY position opened 5 hours before time 6 with 0.5 percent profit
and no price-based stop hit. -/
def posStall : Position :=
  ⟨"AAAUSDT", 100, 100.5, 100.5, 1, "BUY", 95, 110, 0, false, 0.5, 0.5, 1, 0⟩

/-- A BUY position opened 25 hours before time 26 with 50 percent profit
and no price-based stop hit (its take profit sits above the price). -/
def posHard : Position :=
  ⟨"AAAUSDT", 100, 150, 150, 1, "BUY", 90, 200, 0, false, 50, 50, 1, 0⟩

/-- A BUY position with both the trailing stop and the static stop-loss
breached at once. -/
def posC6 : Position :=
  ⟨"BTCUSDT", 100, 80, 100, 1, "BUY", 90, 110, 85, true, -20, -20, 1, 0⟩

/-- Five recorded trades of which the last five contain four losses. -/
def mC8 : Manager :=
  ⟨cfgFixed, 0, 0,
   [⟨"A", -1, 0, false⟩, ⟨"B", -1, 0, false⟩, ⟨"C", 2, 0, true⟩,
    ⟨"D", -1, 0, false⟩, ⟨"E", -1, 0, false⟩]⟩

/-! ## Theorems

The arithmetic of ℚ is `@[irreducible]` in the library; the scoped
attribute below restores default reducibility inside this namespace so
that closed statements about the embedded code evaluate by decide. -/

attribute [local semireducible] Rat.add Rat.sub Rat.mul Rat.inv
  Rat.ofScientific

/-- C10: AnalyzeRiskReward is total at zero risk: for every entry price and
take profit, when the stop-loss equals the entry price the risk distance
is 0 and the function returns ratio 0 and acceptable false instead of
dividing by zero. -/
theorem C10_riskReward_zero_risk (m : Manager) (entryPrice takeProfit : ℚ) :
    analyzeRiskReward m entryPrice entryPrice takeProfit = (0, false) := by
  unfold analyzeRiskReward
  simp

/-- C6: a position with trailing stop enabled whose current price breaches
both the trailing stop and the static stop-loss is closed with the
trailing-stop reason: the trailing check comes first and the first match
wins. -/
theorem C6_trailing_priority (now : ℚ) (p : Position)
    (henabled : p.TrailingStopEnabled = true)
    (htrail : p.CurrentPrice ≤ p.TrailingStopPrice)
    (hstop : p.CurrentPrice ≤ p.StopLoss) :
    shouldClosePosition now p = (true, "Trailing stop hit") := by
  unfold shouldClosePosition
  rw [if_pos ⟨henabled, htrail⟩]

/-- Witness for C6 at a concrete position with both levels breached. -/
theorem C6_witness :
    shouldClosePosition 2 posC6 = (true, "Trailing stop hit") :=
  C6_trailing_priority 2 posC6 (by decide) (by decide) (by decide)

/-- C8: with at least 5 recorded trades of which at least 4 of the last 5
are losses, CanOpenPosition rejects, for every position list and every
daily PnL (the earlier gates also reject, so the result is false either
way). -/
theorem C8_loss_streak_blocks (m : Manager) (positions : List Position)
    (h5 : 5 ≤ m.tradeHistory.length)
    (h4 : 4 ≤ ((m.tradeHistory.drop (m.tradeHistory.length - 5)).filter
      (fun t => ! t.Success)).length) :
    (canOpenPosition m positions).1 = false := by
  unfold canOpenPosition
  split_ifs with h1 h2 h3
  · rfl
  · rfl
  · rfl
  · exact absurd ⟨h5, h4⟩ h3

/-- Witness for C8: 4 losses among the last 5 recorded trades. -/
theorem C8_witness : (canOpenPosition mC8 []).1 = false :=
  C8_loss_streak_blocks mC8 [] (by decide) (by decide)

/-- C4 as stated is false: the source uses the STRICT comparison
dailyPnL < -MaxDailyLoss, so at exact equality with the limit (here
-100 vs limit 100), with capacity available and no loss streak, the gate
returns true although the claim requires false. -/
theorem C4_counterexample :
    mC4.dailyPnL = -mC4.config.Risk.MaxDailyLoss ∧
    ([] : List Position).length < mC4.config.Strategy.MaxPositions ∧
    mC4.tradeHistory.length < 5 ∧
    (canOpenPosition mC4 []).1 = true := by decide

/-- C4 amended: under capacity and without a loss streak, CanOpenPosition
rejects exactly when the period PnL is STRICTLY below the negated max
daily loss; at equality it accepts. -/
theorem C4_daily_loss_gate (m : Manager) (positions : List Position)
    (hcap : positions.length < m.config.Strategy.MaxPositions)
    (hstreak : ¬ (5 ≤ m.tradeHistory.length ∧
      4 ≤ ((m.tradeHistory.drop (m.tradeHistory.length - 5)).filter
        (fun t => ! t.Success)).length)) :
    ((canOpenPosition m positions).1 = false ↔
      m.dailyPnL < -m.config.Risk.MaxDailyLoss) := by
  unfold canOpenPosition
  rw [if_neg (by omega)]
  by_cases hd : m.dailyPnL < -m.config.Risk.MaxDailyLoss
  · rw [if_pos hd]
    simp [hd]
  · rw [if_neg hd, if_neg hstreak]
    simp [hd]

/-- Witness for C4: strictly below the limit the gate rejects. -/
theorem C4_witness : (canOpenPosition mC4w []).1 = false :=
  (C4_daily_loss_gate mC4w [] (by decide) (by decide)).mpr (by decide)

/-- C9: RSI over period 14 stays within [0,100] for every non-empty price
sequence, and is exactly 50 whenever fewer than 15 samples are given. -/
theorem C9_rsi_range (prices : List ℚ) :
    (prices ≠ [] →
      0 ≤ calculateRSI prices 14 ∧ calculateRSI prices 14 ≤ 100) ∧
    (prices.length < 15 → calculateRSI prices 14 = 50) := by
  constructor
  · intro _
    unfold calculateRSI
    dsimp only
    split_ifs with h1 h2 h3 h4 h5 h6
    all_goals first
      | (norm_num; done)
      | (constructor <;> linarith)
  · intro h
    unfold calculateRSI
    rw [if_pos (by omega)]

/-- Witness for C9 at the three-sample list [1,2,3]. -/
theorem C9_witness :
    (0 ≤ calculateRSI [1, 2, 3] 14 ∧ calculateRSI [1, 2, 3] 14 ≤ 100) ∧
    calculateRSI [1, 2, 3] 14 = 50 :=
  ⟨(C9_rsi_range [1, 2, 3]).1 (by decide),
   (C9_rsi_range [1, 2, 3]).2 (by decide)⟩

/-- C3 as stated is false: with 26 ≤ n < 35 samples only the signal line
and the histogram are 0; the MACD line itself is already computed (here it
is nonzero on 26 ascending prices). -/
theorem C3_counterexample :
    pricesC3.length < 35 ∧ (calculateMACD pricesC3).1 ≠ 0 := by decide

/-- C3 amended: with fewer than 26 samples all three outputs of
CalculateMACD are 0; with fewer than 35 samples the signal line and the
histogram are 0 (while the MACD line needs only 26 samples). -/
theorem C3_macd_insufficient (prices : List ℚ) :
    (prices.length < 26 → calculateMACD prices = (0, 0, 0)) ∧
    (prices.length < 35 →
      (calculateMACD prices).2.1 = 0 ∧ (calculateMACD prices).2.2 = 0) := by
  constructor
  · intro h
    unfold calculateMACD
    rw [if_pos h]
  · intro h
    unfold calculateMACD
    by_cases h26 : prices.length < 26
    · rw [if_pos h26]
      exact ⟨rfl, rfl⟩
    · rw [if_neg h26]
      dsimp only
      simp only [List.length_map, List.length_range]
      rw [if_neg (by omega)]
      exact ⟨rfl, rfl⟩

/-- Witness for C3 at a short list and at the 26-sample list. -/
theorem C3_witness :
    calculateMACD [1, 2, 3] = (0, 0, 0) ∧
    ((calculateMACD pricesC3).2.1 = 0 ∧ (calculateMACD pricesC3).2.2 = 0) :=
  ⟨(C3_macd_insufficient [1, 2, 3]).1 (by decide),
   (C3_macd_insufficient pricesC3).2 (by decide)⟩

/-- The checklist total is bounded: it never exceeds 110 (the constant
maxScore) and never drops below -5 (the volatile-regime penalty with no
criterion met). -/
theorem scorePoints_bounds (momentumStrong volumeGood volumeConfirmation
    volumeProfileBullish rsiHealthy rsiOptimal rsiNotExtreme mtfBullish
    mtfStrong aboveSMA bullishEMA macdBullish macdPositive bbInRange
    bbBullish regimeFavorable regimeHighConfidence : Bool)
    (regime : String) :
    -5 ≤ scorePoints momentumStrong volumeGood volumeConfirmation
        volumeProfileBullish rsiHealthy rsiOptimal rsiNotExtreme mtfBullish
        mtfStrong aboveSMA bullishEMA macdBullish macdPositive bbInRange
        bbBullish regimeFavorable regimeHighConfidence regime ∧
      scorePoints momentumStrong volumeGood volumeConfirmation
        volumeProfileBullish rsiHealthy rsiOptimal rsiNotExtreme mtfBullish
        mtfStrong aboveSMA bullishEMA macdBullish macdPositive bbInRange
        bbBullish regimeFavorable regimeHighConfidence regime ≤ 110 := by
  unfold scorePoints
  have h1 : (0:ℚ) ≤ (if momentumStrong = true then (15:ℚ) else 0) ∧
      (if momentumStrong = true then (15:ℚ) else 0) ≤ 15 := by
    cases momentumStrong <;> norm_num
  have h2 : (0:ℚ) ≤ (if volumeGood = true then
        15 + (if volumeConfirmation = true then (5:ℚ) else 0) else 0) ∧
      (if volumeGood = true then
        15 + (if volumeConfirmation = true then (5:ℚ) else 0) else 0) ≤ 20 := by
    cases volumeGood <;> cases volumeConfirmation <;> norm_num
  have h3 : (0:ℚ) ≤ (if volumeProfileBullish = true then (5:ℚ) else 0) ∧
      (if volumeProfileBullish = true then (5:ℚ) else 0) ≤ 5 := by
    cases volumeProfileBullish <;> norm_num
  have h4 : (0:ℚ) ≤ (if (rsiHealthy && rsiNotExtreme) = true then
        10 + (if rsiOptimal = true then (5:ℚ) else 0) else 0) ∧
      (if (rsiHealthy && rsiNotExtreme) = true then
        10 + (if rsiOptimal = true then (5:ℚ) else 0) else 0) ≤ 15 := by
    cases rsiHealthy <;> cases rsiNotExtreme <;> cases rsiOptimal <;> norm_num
  have h5 : (0:ℚ) ≤ (if mtfBullish = true then
        10 + (if mtfStrong = true then (10:ℚ) else 0) else 0) ∧
      (if mtfBullish = true then
        10 + (if mtfStrong = true then (10:ℚ) else 0) else 0) ≤ 20 := by
    cases mtfBullish <;> cases mtfStrong <;> norm_num
  have h6 : (0:ℚ) ≤ (if aboveSMA = true then (5:ℚ) else 0) ∧
      (if aboveSMA = true then (5:ℚ) else 0) ≤ 5 := by
    cases aboveSMA <;> norm_num
  have h7 : (0:ℚ) ≤ (if bullishEMA = true then (5:ℚ) else 0) ∧
      (if bullishEMA = true then (5:ℚ) else 0) ≤ 5 := by
    cases bullishEMA <;> norm_num
  have h8 : (0:ℚ) ≤ (if (macdBullish && macdPositive) = true then (10:ℚ)
        else 0) ∧
      (if (macdBullish && macdPositive) = true then (10:ℚ) else 0) ≤ 10 := by
    cases macdBullish <;> cases macdPositive <;> norm_num
  have h9 : (0:ℚ) ≤ (if (bbInRange && bbBullish) = true then (5:ℚ) else 0) ∧
      (if (bbInRange && bbBullish) = true then (5:ℚ) else 0) ≤ 5 := by
    cases bbInRange <;> cases bbBullish <;> norm_num
  have h10 : (-5:ℚ) ≤ (if (regimeFavorable && regimeHighConfidence) = true
        then (10:ℚ)
        else if regime = "VOLATILE" then -5
        else if regime = "RANGING" then -3 else 0) ∧
      (if (regimeFavorable && regimeHighConfidence) = true then (10:ℚ)
        else if regime = "VOLATILE" then -5
        else if regime = "RANGING" then -3 else 0) ≤ 10 := by
    cases regimeFavorable <;> cases regimeHighConfidence <;>
      split_ifs <;> norm_num
  constructor <;>
    linarith [h1.1, h1.2, h2.1, h2.2, h3.1, h3.2, h4.1, h4.2, h5.1, h5.2,
      h6.1, h6.2, h7.1, h7.2, h8.1, h8.2, h9.1, h9.2, h10.1, h10.2]

/-- Dividing a checklist total by the constant maxScore = 110 lands in
[-1/22, 1]. -/
theorem div_maxScore_bounds (s : ℚ) (hlo : -5 ≤ s) (hhi : s ≤ 110) :
    -1/22 ≤ s / maxScore ∧ s / maxScore ≤ 1 := by
  have hm : maxScore = 110 := by norm_num [maxScore]
  rw [hm]
  constructor
  · rw [le_div_iff (by norm_num : (0:ℚ) < 110)]
    linarith
  · rw [div_le_one (by norm_num : (0:ℚ) < 110)]
    linarith

/-- The Strength of the Signal produced by the scoring block is the
checklist total over maxScore, hence within [-1/22, 1], in every branch of
the decision. -/
theorem scoreAndDecide_strength (cfg : Config) (ticker : Ticker)
    (regime : String) (regimeConfidence : ℚ) (volumeProfile : String)
    (atrValue rsi sma20 ema12 ema26 macd macdSignal macdHistogram : ℚ)
    (upperBB middleBB lowerBB : ℚ) (volumeSpike : Bool) (volumeRatio : ℚ)
    (mtfScore : ℚ) (signal1 : Signal) :
    -1/22 ≤ (scoreAndDecide cfg ticker regime regimeConfidence volumeProfile
        atrValue rsi sma20 ema12 ema26 macd macdSignal macdHistogram
        upperBB middleBB lowerBB volumeSpike volumeRatio mtfScore
        signal1).Strength ∧
      (scoreAndDecide cfg ticker regime regimeConfidence volumeProfile
        atrValue rsi sma20 ema12 ema26 macd macdSignal macdHistogram
        upperBB middleBB lowerBB volumeSpike volumeRatio mtfScore
        signal1).Strength ≤ 1 := by
  unfold scoreAndDecide
  dsimp only
  split_ifs <;> dsimp only <;>
    exact div_maxScore_bounds _
      (scorePoints_bounds _ _ _ _ _ _ _ _ _ _ _ _ _ _ _ _ _ _).1
      (scorePoints_bounds _ _ _ _ _ _ _ _ _ _ _ _ _ _ _ _ _ _).2

/-- The Strength returned by the GenerateSignal body is within [-1/22, 1]
whenever the incoming template signal carries Strength 0. -/
theorem generateSignalCore_strength (sq : ℚ → ℚ) (cfg : Config)
    (klines5m : Option (List Kline)) (mtfFetch : String → Option (List Kline))
    (ticker : Ticker) (positions : List Position) (prices volumes : List ℚ)
    (signal0 : Signal) (h0 : signal0.Strength = 0) :
    -1/22 ≤ (generateSignalCore sq cfg klines5m mtfFetch ticker positions
        prices volumes signal0).Strength ∧
      (generateSignalCore sq cfg klines5m mtfFetch ticker positions
        prices volumes signal0).Strength ≤ 1 := by
  unfold generateSignalCore
  dsimp only
  by_cases hp : positions.any (fun pos => pos.Symbol = ticker.Symbol) = true
  · rw [if_pos hp]
    dsimp only
    rw [h0]
    constructor <;> norm_num
  · rw [if_neg hp]
    exact scoreAndDecide_strength _ _ _ _ _ _ _ _ _ _ _ _ _ _ _ _ _ _ _ _

/-- The weighted trend vote never counts more bullish weight than total
weight, and the total weight is positive. -/
theorem trendVote_le_total (sq : ℚ → ℚ) (klines : List Kline) :
    (trendVote sq klines).1 ≤ (trendVote sq klines).2 ∧
      0 < (trendVote sq klines).2 := by
  unfold trendVote
  dsimp only
  constructor
  · split_ifs <;> omega
  · split_ifs <;> omega

/-- The strength reported by DetectTrend lies in [0,1] in every branch. -/
theorem detectTrend_range (sq : ℚ → ℚ) (klines : List Kline) :
    0 ≤ (detectTrend sq klines).2 ∧ (detectTrend sq klines).2 ≤ 1 := by
  unfold detectTrend
  dsimp only
  have hv := trendVote_le_total sq klines
  have hpos : (0:ℚ) < ((trendVote sq klines).2 : ℚ) := by
    exact_mod_cast hv.2
  have hle : ((trendVote sq klines).1 : ℚ) /
      ((trendVote sq klines).2 : ℚ) ≤ 1 := by
    rw [div_le_one hpos]
    exact_mod_cast hv.1
  have hnn : (0:ℚ) ≤ ((trendVote sq klines).1 : ℚ) /
      ((trendVote sq klines).2 : ℚ) := by positivity
  split_ifs <;> dsimp only <;> constructor <;>
    first | (norm_num; done) | linarith

/-- C2 as stated is false: on a concrete run (negative momentum, zero
quote volume, falling 26-sample history with RSI 0, VOLATILE regime from
the 5m candles, all multi-timeframe fetches failing) no criterion scores
and the volatile-market penalty drives the checklist total to -5, so the
returned Strength is -1/22 < 0, outside the claimed [0,1]. -/
theorem C2_counterexample :
    (generateSignal ratSqrt cfgFixed none (some klVolatile) (fun _ => none)
      tickerC2 [] phC2 vhC2).Strength = -1/22 ∧
    (generateSignal ratSqrt cfgFixed none (some klVolatile) (fun _ => none)
      tickerC2 [] phC2 vhC2).Strength < 0 := by decide

/-- C2 amended: every TimeframeAnalysis strength produced by DetectTrend
lies in [0,1], and the Strength of every Signal returned by GenerateSignal
lies in [-1/22, 1]: the upper bound 1 holds, but the lower bound is the
(unclamped) volatile-regime penalty -5 over maxScore 110, not 0. -/
theorem C2_strength_bounds (sq : ℚ → ℚ) (cfg : Config)
    (backfill klines5m : Option (List Kline))
    (mtfFetch : String → Option (List Kline)) (ticker : Ticker)
    (positions : List Position) (priceHist volumeHist : List ℚ) :
    (-1/22 ≤ (generateSignal sq cfg backfill klines5m mtfFetch ticker
        positions priceHist volumeHist).Strength ∧
      (generateSignal sq cfg backfill klines5m mtfFetch ticker positions
        priceHist volumeHist).Strength ≤ 1) ∧
    ∀ klines : List Kline,
      0 ≤ (detectTrend sq klines).2 ∧ (detectTrend sq klines).2 ≤ 1 := by
  constructor
  · unfold generateSignal
    dsimp only
    by_cases h20 :
      (updateHistory priceHist volumeHist ticker.LastPrice
        ticker.Volume).1.length < 20
    · rw [if_pos h20]
      cases backfill with
      | none =>
        dsimp only
        constructor <;> norm_num
      | some klines =>
        dsimp only
        by_cases hk : klines.length > 0
        · rw [if_pos hk]
          exact generateSignalCore_strength _ _ _ _ _ _ _ _ _ rfl
        · rw [if_neg hk]
          dsimp only
          constructor <;> norm_num
    · rw [if_neg h20]
      exact generateSignalCore_strength _ _ _ _ _ _ _ _ _ rfl
  · exact fun klines => detectTrend_range sq klines

/-- C1: the normalization of AnalyzeMultipleTimeframes is broken when a
skipped timeframe is not a suffix of the fixed list.  With the 1h fetch
failing and 5m, 15m, 4h all BULLISH at strength 5/6 (26 rising candles),
the signed sum is 5/6 * (0.5 + 1 + 3) = 3.75, but the source divides by
the weights of timeframes[:validTimeframes] = 5m, 15m, 1h (3.5 in total)
instead of the included 4.5, giving 29/28 — outside [0,1] and different
from the claimed (and intended, per the source comment) normalization
(3.75 + 4.5) / 9 = 11/12. -/
theorem C1_weight_bug_eval :
    detectTrend ratSqrt klRising = ("BULLISH", 5/6) ∧
    (analyzeMultipleTimeframes ratSqrt fetchC1).2 = 29/28 ∧
    (1 : ℚ) < (analyzeMultipleTimeframes ratSqrt fetchC1).2 := by decide

/-- C5 as stated is false in its second half: a position older than 24
hours with PnL 50 percent whose take-profit level is breached is closed
with the take-profit reason, not the hard-exit reason (the price checks
run first).  posC5 is 25 hours old with PnL 50 and price 150 at take
profit 110. -/
theorem C5_counterexample :
    26 - posC5.EntryTime > 24 ∧ posC5.PnLPercent = 50 ∧
    shouldClosePosition 26 posC5 = (true, "Take profit hit") ∧
    (shouldClosePosition 26 posC5).2 ≠ "Time-based exit: open too long" := by
  decide

/-- C5 amended: for a BUY position with a set entry time whose price-based
stops are not hit, being open more than 4 hours with PnL below 1 percent
closes with the stall reason; and a position with a set entry time whose
price-based stops are not hit, open more than 24 hours with PnL 50
percent, closes with the hard-exit reason. -/
theorem C5_time_exits :
    (∀ (now : ℚ) (p : Position), p.Side = "BUY" → p.EntryTime ≠ 0 →
      ¬ (p.TrailingStopEnabled = true ∧
          p.CurrentPrice ≤ p.TrailingStopPrice) →
      ¬ p.CurrentPrice ≤ p.StopLoss → ¬ p.CurrentPrice ≥ p.TakeProfit →
      now - p.EntryTime > 4 → p.PnLPercent < 1 →
      shouldClosePosition now p =
        (true, "Time-based exit: open with minimal profit")) ∧
    (∀ (now : ℚ) (p : Position), p.EntryTime ≠ 0 →
      ¬ (p.TrailingStopEnabled = true ∧
          p.CurrentPrice ≤ p.TrailingStopPrice) →
      ¬ (p.Side = "BUY" ∧ p.CurrentPrice ≤ p.StopLoss) →
      ¬ (p.Side = "BUY" ∧ p.CurrentPrice ≥ p.TakeProfit) →
      now - p.EntryTime > 24 → p.PnLPercent = 50 →
      shouldClosePosition now p = (true, "Time-based exit: open too long")) := by
  constructor
  · intro now p hside hentry htrail hstop htp hage hpnl
    unfold shouldClosePosition
    rw [if_neg htrail]
    rw [if_neg (fun hc => hstop hc.2)]
    rw [if_neg (fun hc => htp hc.2)]
    rw [if_pos hentry]
    dsimp only
    rw [if_pos ⟨hage, hpnl⟩]
  · intro now p hentry htrail hstop htp hage hpnl
    unfold shouldClosePosition
    rw [if_neg htrail, if_neg hstop, if_neg htp, if_pos hentry]
    dsimp only
    rw [if_neg (fun hc => by rw [hpnl] at hc; exact absurd hc.2 (by norm_num))]
    rw [if_pos hage]

/-- Witness for C5: the stall exit at 5 hours with 0.5 percent profit and
the hard exit at 25 hours with 50 percent profit. -/
theorem C5_witness :
    shouldClosePosition 6 posStall =
      (true, "Time-based exit: open with minimal profit") ∧
    shouldClosePosition 26 posHard =
      (true, "Time-based exit: open too long") :=
  ⟨C5_time_exits.1 6 posStall (by decide) (by decide) (by decide) (by decide)
      (by decide) (by decide) (by decide),
   C5_time_exits.2 26 posHard (by decide) (by decide) (by decide) (by decide)
      (by decide) (by decide)⟩

/-- One UpdateTrailingStop call never lowers the stored trailing stop: the
new stop is adopted only when it exceeds the stored one. -/
theorem updateTrailingStop_ratchet (cfg : Config) (p : Position) :
    p.TrailingStopPrice ≤ ((updateTrailingStop cfg p).1).TrailingStopPrice := by
  unfold updateTrailingStop
  dsimp only
  split_ifs <;> dsimp only <;> first | exact le_rfl | linarith

/-- A price refresh (current price overwrite plus UpdateTrailingStop)
never lowers the stored trailing stop. -/
theorem trailingRefresh_ratchet (cfg : Config) (p : Position) (price : ℚ) :
    p.TrailingStopPrice ≤ (trailingRefresh cfg p price).TrailingStopPrice := by
  unfold trailingRefresh
  exact updateTrailingStop_ratchet cfg { p with CurrentPrice := price }

/-- C7: across every sequence of price refreshes, the trailing stop of a
position is monotonically non-decreasing: a dip in price never lowers it,
and a recomputed stop is adopted only when it exceeds the stored one. -/
theorem C7_trailing_monotone (cfg : Config) (p : Position)
    (prices : List ℚ) :
    p.TrailingStopPrice ≤
      (runTrailingUpdates cfg p prices).TrailingStopPrice := by
  induction prices generalizing p with
  | nil => exact le_refl _
  | cons q qs ih =>
    have hstep := trailingRefresh_ratchet cfg p q
    have htail := ih (trailingRefresh cfg p q)
    have hfold : runTrailingUpdates cfg p (q :: qs) =
        runTrailingUpdates cfg (trailingRefresh cfg p q) qs := rfl
    rw [hfold]
    exact le_trans hstep htail

end Bot
